import Mathlib

/-!
# Verification of the autoscaling-group reconciliation core

Shallow embedding of `autoscaler/autoscaling_groups.py`:
the group catalog's batched launch-configuration fetch, the
timeout-reconciliation state machine (`AutoScalingTimeouts`), the
spot-outbid tracker, and the `AutoScalingGroup` sizing operations.

Modelling conventions:
* Python `int` becomes `Int`; activity timestamps and "now" are epoch seconds.
* Python `None` becomes `Option.none`; a Python runtime error (e.g.
  subscripting `None`) becomes `Except.error`.
* The regular-expression table (`AutoScalingErrorMessages`,
  `AutoScalingCauseMessages`) is embedded by its parse results: each message
  is represented by the optional capture of every pattern; the reconciler
  consults those fields in exactly the order the source tries the patterns.
* Provider mutations (`set_desired_capacity`, cancelling a spot request,
  terminating an instance) are recorded in an ordered trace of
  `ProviderCall`s; provider responses (spot request state, a node's
  termination outcome, a node's uncordon outcome) are inputs.
* Spot prices are embedded as rationals.
-/

/-- Parse results of the `AutoScalingErrorMessages` pattern table on one
activity's `StatusMessage` text.  `instance_limit` carries the `requested`
capture of `INSTANCE_LIMIT`; `spot_request_waiting` / `spot_request_cancelled`
carry the `request_id` capture; the remaining patterns capture nothing the
code uses, so a boolean records whether they match. -/
structure StatusMessage where
  instance_limit : Option Nat := none
  volume_limit : Bool := false
  capacity_limit : Bool := false
  az_limit : Bool := false
  spot_request_cancelled : Bool := false
  spot_limit : Bool := false
  spot_request_waiting : Option String := none
deriving Repr, DecidableEq

/-- Parse results of the `AutoScalingCauseMessages` pattern table on one
activity's `Cause` text.  `launch_instance` carries the `original_capacity`
capture of `LAUNCH_INSTANCE`. -/
structure CauseMessage where
  launch_instance : Option Nat := none
  az_balance : Bool := false
deriving Repr, DecidableEq

/-- One scaling activity as consumed from the provider's activity log. -/
structure Activity where
  activityId : String := ""
  groupName : String := ""
  statusCode : String := ""
  statusMessage : StatusMessage := {}
  cause : CauseMessage := {}
  startTime : Int := 0
  progress : Nat := 0
deriving Repr, DecidableEq

/-- Outcome the provider reports when asked to terminate one instance
(`terminate_instance_in_auto_scaling_group`): success, the specific
"would violate group's min size constraint" client error, or any other
client error. -/
inductive TerminateResult
  | ok
  | minSizeViolation
  | otherError
deriving Repr, DecidableEq

/-- A cluster node, carrying the external collaborators' responses as data:
`uncordon_ok` is what `node.uncordon()` returns, `terminate_result` is what
the provider answers if this node's instance is terminated. -/
structure KubeNode where
  instance_id : String := ""
  unschedulable : Bool := false
  uncordon_ok : Bool := true
  terminate_result : TerminateResult := .ok
deriving Repr, DecidableEq

/-- The scaling-group entity (`AutoScalingGroup.__init__`): identity, sizing
bounds and current membership. -/
structure AutoScalingGroup where
  name : String := ""
  region : String := ""
  desired_capacity : Int := 0
  min_size : Int := 0
  max_size : Int := 0
  nodes : List KubeNode := []
deriving Repr, DecidableEq

/-- `actual_capacity` property: `len(self.nodes)`. -/
def AutoScalingGroup.actual_capacity (g : AutoScalingGroup) : Int :=
  (g.nodes.length : Int)

/-- `self.unschedulable_nodes`: the members whose node is unschedulable. -/
def AutoScalingGroup.unschedulable_nodes (g : AutoScalingGroup) : List KubeNode :=
  g.nodes.filter (fun n => n.unschedulable)

/-- `AutoScalingGroup.is_timed_out` (lines 415-416): constantly `False`. -/
def AutoScalingGroup.is_timed_out (_g : AutoScalingGroup) : Bool :=
  false

/-- A provider mutation issued by the code, in issue order. -/
inductive ProviderCall
  | setDesiredCapacity (n : Int)
  | cancelSpotRequest (region : String) (request_id : String)
  | terminateInstance (instance_id : String) (decrement : Bool)
deriving Repr, DecidableEq

namespace AutoScalingTimeouts

/-- `_TIMEOUT = 3600` (1 hour, seconds). -/
def TIMEOUT : Int := 3600

/-- `_SPOT_REQUEST_TIMEOUT = 300` (5 minutes, seconds). -/
def SPOT_REQUEST_TIMEOUT : Int := 300

/-- `_MAX_OUTBIDS_IN_INTERVAL = 60*20` (20 minutes, seconds). -/
def MAX_OUTBIDS_IN_INTERVAL : Int := 60 * 20

/-- `_SPOT_HISTORY_PERIOD = 60*60*5` (5 hours, seconds). -/
def SPOT_HISTORY_PERIOD : Int := 60 * 60 * 5

/-- Python truthiness test `t and now < t` for an optional expiry
timestamp: `None` is falsy, a datetime is always truthy. -/
def expiry_truthy_and_future (now : Int) : Option Int → Bool
  | none => false
  | some t => decide (now < t)

/-- `AutoScalingTimeouts.is_timed_out` (lines 270-280), for one group: its
entry in `self._timeouts` (the ordinary channel) and in `self._spot_timeouts`
(the spot channel) queried at instant `now`. -/
def is_timed_out (now : Int) (timeout spot_timeout : Option Int) : Bool :=
  if expiry_truthy_and_future now timeout then true
  else if expiry_truthy_and_future now spot_timeout then true
  else false

end AutoScalingTimeouts

/-- `AutoScalingGroups` batch size for `describe_launch_configurations`
(line 36). -/
def batch_size : Nat := 50

/-- Python `range(0, stop, step)` for positive `step`. -/
def python_range_step (stop step : Nat) : List Nat :=
  (List.range ((stop + step - 1) / step)).map (fun i => i * step)

/-- Python slice `l[a:b]` for non-negative bounds. -/
def python_slice (l : List α) (a b : Nat) : List α :=
  (l.drop a).take (b - a)

/-- The launch-configuration names requested across all batches by
`get_all_raw_groups_and_launch_configs` (lines 36-44): for each
`launch_config_idx in range(0, len(raw_groups), batch_size)` the batch is
the slice `raw_groups[launch_config_idx*batch_size:(launch_config_idx+1)*batch_size]`.
A raw group is represented here by its `LaunchConfigurationName`. -/
def batched_launch_config_names (raw_groups : List α) : List α :=
  (python_range_step raw_groups.length batch_size).flatMap
    (fun launch_config_idx =>
      python_slice raw_groups (launch_config_idx * batch_size)
        ((launch_config_idx + 1) * batch_size))

namespace AutoScalingTimeouts

/-- The per-region activity scan of `refresh_timeouts` (lines 116-132):
walk the reverse-chronological stream, remembering the first activity with
`Progress == 100` (`newest_completed_activity`), stopping after the
previous watermark's activity id or before an activity older than the
one-hour staleness cutoff, and collecting every consumed activity.
`start_time_cutoff` is fixed at `now - _TIMEOUT` the first time it is
needed; since `now` is a parameter the cutoff is inlined.  Returns the
consumed activities in order and the remembered completed activity. -/
def scan_region_activities (watermark : Option String) (now : Int) :
    List Activity → Option Activity → List Activity → List Activity × Option Activity
  | [], newest_completed, consumed => (consumed, newest_completed)
  | activity :: rest, newest_completed, consumed =>
    let newest_completed :=
      if newest_completed.isNone && activity.progress == 100 then some activity
      else newest_completed
    if watermark == some activity.activityId then (consumed, newest_completed)
    else if activity.startTime < now - TIMEOUT then (consumed, newest_completed)
    else scan_region_activities watermark now rest newest_completed (consumed ++ [activity])

/-- The watermark store of `refresh_timeouts` line 134,
`self._last_activities[region] = newest_completed_activity['ActivityId']`:
subscripting is a `TypeError` when `newest_completed_activity` is `None`,
so the update is fallible. -/
def update_last_activity : Option Activity → Except String String
  | some a => .ok a.activityId
  | none => .error "TypeError"

/-- The new watermark a region's scan stores (or the error the store raises). -/
def refresh_region_watermark (watermark : Option String) (now : Int)
    (stream : List Activity) : Except String String :=
  update_last_activity (scan_region_activities watermark now stream none []).2

/-- `AutoScalingGroup.set_desired_capacity` as seen by the reconciler: the
updated local field plus the provider call issued. -/
def set_desired_capacity (g : AutoScalingGroup) (n : Int) :
    AutoScalingGroup × ProviderCall :=
  ({ g with desired_capacity := n }, .setDesiredCapacity n)

/-- Python `'only-az' in asg.name` (substring containment). -/
def str_contains (s sub : String) : Bool :=
  (s.splitOn sub).length > 1

/-- `AutoScalingTimeouts.cancel_spot_request` (lines 282-299), with the
provider's view of the request id passed in (`none`: the describe call
returns no request; `some s`: the request is in state `s`): the cancel
mutation is issued, and `True` returned, iff the state is open or active. -/
def cancel_spot_request (state : Option String) : Bool :=
  match state with
  | none => false
  | some s => s == "open" || s == "active"

/-- `AutoScalingTimeouts.revert_capacity` (lines 151-168): parse the cause
for `LAUNCH_INSTANCE`; if it matches and the current desired capacity
exceeds the recorded original capacity, set desired capacity back to the
original (unless dry-run) and report `True`; otherwise report `False`.
Returns (reverted, updated group, provider calls issued). -/
def revert_capacity (asg : AutoScalingGroup) (entry : Activity) (dry_run : Bool) :
    Bool × AutoScalingGroup × List ProviderCall :=
  match entry.cause.launch_instance with
  | some original_capacity =>
    if asg.desired_capacity > (original_capacity : Int) then
      if !dry_run then
        let (asg, call) := set_desired_capacity asg (original_capacity : Int)
        (true, asg, [call])
      else (true, asg, [])
    else (false, asg, [])
  | none => (false, asg, [])

/-- Result of one `reconcile_limits` pass over a group: the group with its
(possibly mutated) local desired capacity, the group's entry in the
`_timeouts` map after the pass (`none` models Python `None`), and the
provider mutations issued, in order. -/
structure ReconcileResult where
  asg : AutoScalingGroup
  timeout : Option Int
  calls : List ProviderCall
deriving Repr, DecidableEq

/-- The activity loop of `AutoScalingTimeouts.reconcile_limits`
(lines 176-268).  `spot_requests` is the provider's view of spot request
ids (consulted by `cancel_spot_request`); `now` is the instant
`datetime.datetime.now(...)` yields inside the loop; `timeout` threads the
group's current `_timeouts` entry (kept by the branches that `return`
without marking).  Falling off the end of the list models reaching line 267,
`self._timeouts[asg._id] = None`. -/
def reconcile_limits_go (spot_requests : String → Option String) (dry_run : Bool)
    (now : Int) :
    AutoScalingGroup → Option Int → List ProviderCall → List Activity → ReconcileResult
  | asg, _, calls, [] => ⟨asg, none, calls⟩
  | asg, timeout, calls, entry :: rest =>
    if entry.statusCode == "Failed" || entry.statusCode == "Cancelled" then
      match entry.statusMessage.instance_limit with
      | some requested =>
        -- INSTANCE_LIMIT branch (lines 188-200): cap to requested - 1, return.
        let max_desired_capacity : Int := (requested : Int) - 1
        if asg.desired_capacity > max_desired_capacity then
          let timeout := some (entry.startTime + TIMEOUT)
          if !dry_run then
            let (asg, call) := set_desired_capacity asg max_desired_capacity
            ⟨asg, timeout, calls ++ [call]⟩
          else ⟨asg, timeout, calls⟩
        else ⟨asg, timeout, calls⟩
      | none =>
        if entry.statusMessage.volume_limit then
          -- VOLUME_LIMIT branch (lines 202-206): time out, return.
          ⟨asg, some (entry.startTime + TIMEOUT), calls⟩
        else if entry.statusMessage.capacity_limit then
          -- CAPACITY_LIMIT branch (lines 208-213): revert, time out if reverted, return.
          match revert_capacity asg entry dry_run with
          | (reverted, asg, revert_calls) =>
            if reverted then ⟨asg, some (entry.startTime + TIMEOUT), calls ++ revert_calls⟩
            else ⟨asg, timeout, calls ++ revert_calls⟩
        else if entry.statusMessage.az_limit && str_contains asg.name "only-az" then
          -- AZ_LIMIT branch (lines 215-220): like CAPACITY_LIMIT, gated on the name.
          match revert_capacity asg entry dry_run with
          | (reverted, asg, revert_calls) =>
            if reverted then ⟨asg, some (entry.startTime + TIMEOUT), calls ++ revert_calls⟩
            else ⟨asg, timeout, calls ++ revert_calls⟩
        else if entry.statusMessage.spot_request_cancelled then
          -- SPOT_REQUEST_CANCELLED branch (lines 222-226): benign, continue.
          reconcile_limits_go spot_requests dry_run now asg timeout calls rest
        else if entry.statusMessage.spot_limit then
          -- SPOT_LIMIT branch (lines 228-236): time out, drop to actual capacity, return.
          let timeout := some (entry.startTime + TIMEOUT)
          if !dry_run then
            let (asg, call) := set_desired_capacity asg asg.actual_capacity
            ⟨asg, timeout, calls ++ [call]⟩
          else ⟨asg, timeout, calls⟩
        else
          -- no pattern matched: the loop just moves on.
          reconcile_limits_go spot_requests dry_run now asg timeout calls rest
    else if entry.statusCode == "WaitingForSpotInstanceId" then
      -- lines 237-265
      if entry.cause.az_balance then
        reconcile_limits_go spot_requests dry_run now asg timeout calls rest
      else if now - entry.startTime > SPOT_REQUEST_TIMEOUT then
        let timeout := some (entry.startTime + TIMEOUT)
        match entry.statusMessage.spot_request_waiting with
        | some request_id =>
          if !dry_run then
            if cancel_spot_request (spot_requests request_id) then
              let (asg2, call) := set_desired_capacity asg (asg.desired_capacity - 1)
              reconcile_limits_go spot_requests dry_run now asg2 timeout
                (calls ++ [.cancelSpotRequest asg.region request_id, call]) rest
            else reconcile_limits_go spot_requests dry_run now asg timeout calls rest
          else reconcile_limits_go spot_requests dry_run now asg timeout calls rest
        | none => reconcile_limits_go spot_requests dry_run now asg timeout calls rest
      else reconcile_limits_go spot_requests dry_run now asg timeout calls rest
    else
      reconcile_limits_go spot_requests dry_run now asg timeout calls rest

/-- `AutoScalingTimeouts.reconcile_limits(asg, activities, dry_run)` starting
from the group's current `_timeouts` entry `timeout0`. -/
def reconcile_limits (spot_requests : String → Option String)
    (asg : AutoScalingGroup) (activities : List Activity) (dry_run : Bool)
    (now : Int) (timeout0 : Option Int) : ReconcileResult :=
  reconcile_limits_go spot_requests dry_run now asg timeout0 [] activities

end AutoScalingTimeouts

/-- One spot-price observation from `describe_spot_price_history`; the
price (a decimal string passed through `float()` in the source) is embedded
as a rational. -/
structure SpotPriceItem where
  InstanceType : String := ""
  SpotPrice : ℚ := 0
  AvailabilityZone : String := ""
  Timestamp : Int := 0
deriving Repr, DecidableEq

/-- Lookup in a Python dict modelled as an insertion-ordered association list. -/
def alist_get (l : List (String × α)) (k : String) : Option α :=
  (l.find? (fun p => p.1 == k)).map (fun p => p.2)

/-- Python dict assignment `d[k] = v` on an insertion-ordered association
list: overwrite in place if the key exists, else append. -/
def alist_set (l : List (String × α)) (k : String) (v : α) : List (String × α) :=
  if (l.find? (fun p => p.1 == k)).isSome then
    l.map (fun p => if p.1 == k then (k, v) else p)
  else l ++ [(k, v)]

/-- The per-group history scan of `time_out_spot_asgs` (lines 336-352):
walk the region's price history, skipping other instance types; on each
observation above the bid price, add to that availability zone's
accumulated outbid time the gap back to the zone's previously seen
observation (zero if none); always record the observation as the zone's
last bid time.  Durations are in seconds. -/
def outbid_scan (instance_type : String) (bid_price : ℚ) :
    List SpotPriceItem → List (String × Int) → List (String × Int) → List (String × Int)
  | [], _, outbid_time => outbid_time
  | item :: rest, last_az_bid, outbid_time =>
    if item.InstanceType != instance_type then
      outbid_scan instance_type bid_price rest last_az_bid outbid_time
    else
      let outbid_time :=
        if item.SpotPrice > bid_price then
          let time_diff : Int :=
            match alist_get last_az_bid item.AvailabilityZone with
            | some t => t - item.Timestamp
            | none => 0
          alist_set outbid_time item.AvailabilityZone
            ((alist_get outbid_time item.AvailabilityZone).getD 0 + time_diff)
        else outbid_time
      outbid_scan instance_type bid_price rest
        (alist_set last_az_bid item.AvailabilityZone item.Timestamp) outbid_time

/-- Lines 354-357: `sum(t.total_seconds() for t in outbid_time.values()) /
len(outbid_time)` when the dict is non-empty, else `0.0`. -/
def avg_outbid_time (outbid_time : List (String × Int)) : ℚ :=
  if outbid_time.isEmpty then 0
  else ((outbid_time.map (fun p => (p.2 : ℚ))).sum) / (outbid_time.length : ℚ)

namespace AutoScalingTimeouts

/-- Lines 336-363 for one spot group: the group's `_spot_timeouts` entry
after `time_out_spot_asgs` evaluates it against the region's retained
history at instant `now`. -/
def spot_timeout_of_asg (instance_type : String) (bid_price : ℚ)
    (history : List SpotPriceItem) (now : Int) : Option Int :=
  let outbid_time := outbid_scan instance_type bid_price history [] []
  if avg_outbid_time outbid_time > (MAX_OUTBIDS_IN_INTERVAL : ℚ) then
    some (now + TIMEOUT)
  else none

end AutoScalingTimeouts

/-- Modelled from the spec's words for comparison (C6): the average outbid
duration computed over "zones that had any outbid duration", i.e. dividing
by the count of zones with NONZERO accumulated outbid time only. -/
def avg_outbid_time_spec_nonzero_zones (outbid_time : List (String × Int)) : ℚ :=
  let nonzero := outbid_time.filter (fun p => p.2 ≠ 0)
  if nonzero.isEmpty then 0
  else ((nonzero.map (fun p => (p.2 : ℚ))).sum) / (nonzero.length : ℚ)

/-- The uncordon loop of `AutoScalingGroup.scale` (lines 456-462): walk the
unschedulable nodes; each successful `uncordon()` bumps the schedulable
count; stop as soon as the count reaches the target.  Returns the final
count and the ids of the nodes uncordoned. -/
def uncordon_until (desired_capacity : Int) :
    List KubeNode → Int → List String → Int × List String
  | [], num_schedulable, uncordoned => (num_schedulable, uncordoned)
  | node :: rest, num_schedulable, uncordoned =>
    if node.uncordon_ok then
      let num_schedulable := num_schedulable + 1
      let uncordoned := uncordoned ++ [node.instance_id]
      if num_schedulable == desired_capacity then (num_schedulable, uncordoned)
      else uncordon_until desired_capacity rest num_schedulable uncordoned
    else uncordon_until desired_capacity rest num_schedulable uncordoned

/-- Result of `AutoScalingGroup.scale`: the resolved boolean ("capacity was
increased"), the group with its updated local desired capacity, the provider
mutations issued, and the ids of the nodes uncordoned along the way. -/
structure ScaleResult where
  result : Bool
  asg : AutoScalingGroup
  calls : List ProviderCall
  uncordoned : List String
deriving Repr, DecidableEq

/-- `AutoScalingGroup.scale(new_desired_capacity)` (lines 440-483). -/
def AutoScalingGroup.scale (g : AutoScalingGroup) (new_desired_capacity : Int) :
    ScaleResult :=
  let desired_capacity := min g.max_size new_desired_capacity
  let num_unschedulable : Int := (g.unschedulable_nodes.length : Int)
  let num_schedulable : Int := g.actual_capacity - num_unschedulable
  let uncordoned :=
    if num_schedulable < desired_capacity then
      (uncordon_until desired_capacity g.unschedulable_nodes num_schedulable []).2
    else []
  if g.desired_capacity != desired_capacity then
    if g.desired_capacity == g.max_size then ⟨false, g, [], uncordoned⟩
    else if g.desired_capacity < desired_capacity then
      ⟨true, { g with desired_capacity := desired_capacity },
        [.setDesiredCapacity desired_capacity], uncordoned⟩
    else ⟨false, g, [], uncordoned⟩
  else ⟨false, g, [], uncordoned⟩

/-- Result of `AutoScalingGroup.scale_nodes_in`: the local membership after
the batch, the termination calls issued, and the instance id on which a
non-min-size provider error propagated (aborting the batch), if any. -/
structure ScaleInResult where
  nodes : List KubeNode
  calls : List ProviderCall
  error : Option String
deriving Repr, DecidableEq

/-- The node loop of `AutoScalingGroup.scale_nodes_in` (lines 490-507):
per node, issue the termination call with
`ShouldDecrementDesiredCapacity = desired_capacity > min_size`; on success
remove the node from local membership; on the specific min-size-violation
client error log and continue; on any other client error re-raise, aborting
the remaining nodes. -/
def scale_nodes_in_go (desired_capacity min_size : Int) :
    List KubeNode → List ProviderCall → List KubeNode → ScaleInResult
  | members, calls, [] => ⟨members, calls, none⟩
  | members, calls, node :: rest =>
    let decrement_capacity := decide (desired_capacity > min_size)
    let calls := calls ++ [.terminateInstance node.instance_id decrement_capacity]
    match node.terminate_result with
    | .ok => scale_nodes_in_go desired_capacity min_size (members.erase node) calls rest
    | .minSizeViolation => scale_nodes_in_go desired_capacity min_size members calls rest
    | .otherError => ⟨members, calls, some node.instance_id⟩

/-- `AutoScalingGroup.scale_nodes_in(nodes)` (lines 485-509). -/
def AutoScalingGroup.scale_nodes_in (g : AutoScalingGroup) (nodes : List KubeNode) :
    ScaleInResult :=
  scale_nodes_in_go g.desired_capacity g.min_size g.nodes [] nodes

/-- Concrete two-node group used to witness the `scale_nodes_in` contract:
at min size, first node's termination rejected for violating min size. -/
def witness_node_minsize : KubeNode :=
  { instance_id := "i-1", terminate_result := .minSizeViolation }

/-- Concrete node whose termination succeeds. -/
def witness_node_ok : KubeNode :=
  { instance_id := "i-2" }

/-- Concrete group holding the two witness nodes at min size. -/
def witness_group : AutoScalingGroup :=
  { desired_capacity := 1, min_size := 1,
    nodes := [witness_node_minsize, witness_node_ok] }

/-- C2: `is_timed_out` is true iff the ordinary-channel expiry is non-null
and strictly in the future, or the spot-channel expiry is non-null and
strictly in the future, independent of which channel set it. -/
theorem is_timed_out_iff_either_channel_future (now : Int) (timeout spot_timeout : Option Int) :
    AutoScalingTimeouts.is_timed_out now timeout spot_timeout = true ↔
      ((∃ t, timeout = some t ∧ now < t) ∨ (∃ t, spot_timeout = some t ∧ now < t)) := by
  cases timeout <;> cases spot_timeout <;>
    simp [AutoScalingTimeouts.is_timed_out, AutoScalingTimeouts.expiry_truthy_and_future]

/-- C10: a group's own `is_timed_out()` method returns `False`
unconditionally, whatever the group's state; suppression is observable only
through the reconciler's query, which (unlike the method) can answer `true`. -/
theorem group_is_timed_out_always_false :
    (∀ g : AutoScalingGroup, g.is_timed_out = false)
    ∧ (∃ now timeout spot_timeout,
        AutoScalingTimeouts.is_timed_out now timeout spot_timeout = true) :=
  ⟨fun _ => rfl, 0, some 1, none, rfl⟩

/-- C1 (code evaluation): a single `WaitingForSpotInstanceId` activity that
has been waiting longer than 5 minutes makes the branch fire — the spot
request is cancelled and desired capacity decremented, so the group was
marked timed out mid-pass — yet because the branch does not stop iteration
and line 267 unconditionally stores `None` after the loop, the group is NOT
timed out when `reconcile_limits` returns. -/
theorem reconcile_spot_wait_timeout_erased_at_return :
    (AutoScalingTimeouts.reconcile_limits (fun _ => some "open")
      { name := "g", region := "r", desired_capacity := 2 }
      [{ statusCode := "WaitingForSpotInstanceId", startTime := 0,
         statusMessage := { spot_request_waiting := some "sir-1" } }]
      false 301 none) =
    { asg := { name := "g", region := "r", desired_capacity := 1 },
      timeout := none,
      calls := [.cancelSpotRequest "r" "sir-1", .setDesiredCapacity 1] } := by
  rfl

/-- C4 (code evaluation): with 51 fetched raw groups (represented by their
launch-configuration names `0,...,50`), the batch loop multiplies the
already-stepped range index by the batch size again, so the second batch is
the empty slice `raw_groups[2500:2550]` and the batches together request
only names `0,...,49`: group 50's launch-specification name is fetched by
no batch. -/
theorem batched_launch_config_names_skip_after_first_batch :
    batched_launch_config_names (List.range 51) = List.range 50
    ∧ (List.range 51).contains 50 = true
    ∧ (batched_launch_config_names (List.range 51)).contains 50 = false := by
  refine ⟨rfl, by decide, ?_⟩
  rw [show batched_launch_config_names (List.range 51) = List.range 50 from rfl]
  decide

/-- C5 (code evaluation): the watermark store
`self._last_activities[region] = newest_completed_activity['ActivityId']`
fails with a `TypeError` whenever the scan consumed no activity with
progress 100% — e.g. an empty activity stream, or a stream whose first
activity is still in flight (progress 50) and matches the previous
watermark. -/
theorem refresh_region_watermark_fails_without_completed_activity :
    AutoScalingTimeouts.refresh_region_watermark none 0 [] = .error "TypeError"
    ∧ AutoScalingTimeouts.refresh_region_watermark (some "a-1") 0
        [{ activityId := "a-1", progress := 50 }] = .error "TypeError" :=
  ⟨rfl, rfl⟩

/-- C6 counterexample: a history in which zone "b" accumulates 1800 s of
outbid time and zone "a" a single outbid observation (0 s accumulated).
The code divides by both zones (average 900 s ≤ 1200 s) and clears the spot
channel, while the claim's average over nonzero zones only is 1800 s > 1200 s
and would demand marking the channel. -/
theorem spot_avg_denominator_counterexample :
    (outbid_scan "m4" 1
        [{ InstanceType := "m4", SpotPrice := 2, AvailabilityZone := "b", Timestamp := 3000 },
         { InstanceType := "m4", SpotPrice := 2, AvailabilityZone := "b", Timestamp := 1200 },
         { InstanceType := "m4", SpotPrice := 2, AvailabilityZone := "a", Timestamp := 500 }]
        [] [] = [("b", 1800), ("a", 0)])
    ∧ avg_outbid_time [("b", 1800), ("a", 0)] = 900
    ∧ avg_outbid_time_spec_nonzero_zones [("b", 1800), ("a", 0)] = 1800
    ∧ (900 : ℚ) ≤ (AutoScalingTimeouts.MAX_OUTBIDS_IN_INTERVAL : ℚ)
    ∧ (AutoScalingTimeouts.MAX_OUTBIDS_IN_INTERVAL : ℚ) < (1800 : ℚ)
    ∧ AutoScalingTimeouts.spot_timeout_of_asg "m4" 1
        [{ InstanceType := "m4", SpotPrice := 2, AvailabilityZone := "b", Timestamp := 3000 },
         { InstanceType := "m4", SpotPrice := 2, AvailabilityZone := "b", Timestamp := 1200 },
         { InstanceType := "m4", SpotPrice := 2, AvailabilityZone := "a", Timestamp := 500 }]
        10000 = none := by
  refine ⟨rfl, by norm_num [avg_outbid_time], by norm_num [avg_outbid_time_spec_nonzero_zones], ?_, ?_, ?_⟩
  · norm_num [AutoScalingTimeouts.MAX_OUTBIDS_IN_INTERVAL]
  · norm_num [AutoScalingTimeouts.MAX_OUTBIDS_IN_INTERVAL]
  · rw [AutoScalingTimeouts.spot_timeout_of_asg,
      show outbid_scan "m4" 1
        [{ InstanceType := "m4", SpotPrice := 2, AvailabilityZone := "b", Timestamp := 3000 },
         { InstanceType := "m4", SpotPrice := 2, AvailabilityZone := "b", Timestamp := 1200 },
         { InstanceType := "m4", SpotPrice := 2, AvailabilityZone := "a", Timestamp := 500 }]
        [] [] = [("b", 1800), ("a", 0)] from rfl]
    norm_num [avg_outbid_time, AutoScalingTimeouts.MAX_OUTBIDS_IN_INTERVAL]

/-- C8 counterexample: same group, same two activities (a cancellable
5-minutes-stale spot wait started at time 0, then an instance-limit failure
with requested = 2 started at time 500), same provider view.  The
non-dry-run pass cancels the spot request and decrements desired capacity
to 1, so the instance-limit branch no longer fires and the pass returns
expiry 0 + 3600; the dry-run pass keeps desired capacity 2, so the
instance-limit branch fires and overwrites the expiry with 500 + 3600.
The ordinary-timeout channel after the pass therefore depends on dry-run. -/
theorem reconcile_dry_run_timeout_differs :
    (AutoScalingTimeouts.reconcile_limits (fun _ => some "open")
      { name := "g", region := "r", desired_capacity := 2 }
      [{ statusCode := "WaitingForSpotInstanceId", startTime := 0,
         statusMessage := { spot_request_waiting := some "sir-1" } },
       { statusCode := "Failed", startTime := 500,
         statusMessage := { instance_limit := some 2 } }]
      true 1000 none).timeout = some 4100
    ∧ (AutoScalingTimeouts.reconcile_limits (fun _ => some "open")
      { name := "g", region := "r", desired_capacity := 2 }
      [{ statusCode := "WaitingForSpotInstanceId", startTime := 0,
         statusMessage := { spot_request_waiting := some "sir-1" } },
       { statusCode := "Failed", startTime := 500,
         statusMessage := { instance_limit := some 2 } }]
      false 1000 none).timeout = some 3600 :=
  ⟨rfl, rfl⟩

/-- C3: when a group's activity list begins with a Failed/Cancelled activity
whose status message matches the instance-limit pattern with
`requested = N`: processing of the remaining activities stops (the result
equals the one-activity run); if desired capacity exceeds `N - 1` the group
is timed out until the activity's start time + 1 hour and, unless dry-run,
desired capacity is set to `N - 1`; otherwise nothing changes (not even the
pre-existing timeout entry). -/
theorem reconcile_instance_limit_first_activity
    (spot_requests : String → Option String) (asg : AutoScalingGroup)
    (entry : Activity) (rest : List Activity) (dry_run : Bool) (now : Int)
    (timeout0 : Option Int) (requested : Nat)
    (hstatus : entry.statusCode = "Failed" ∨ entry.statusCode = "Cancelled")
    (hmatch : entry.statusMessage.instance_limit = some requested) :
    (AutoScalingTimeouts.reconcile_limits spot_requests asg (entry :: rest) dry_run now timeout0
      = AutoScalingTimeouts.reconcile_limits spot_requests asg [entry] dry_run now timeout0)
    ∧ (asg.desired_capacity > (requested : Int) - 1 →
        AutoScalingTimeouts.reconcile_limits spot_requests asg (entry :: rest) dry_run now timeout0
          = if dry_run then
              ⟨asg, some (entry.startTime + AutoScalingTimeouts.TIMEOUT), []⟩
            else
              ⟨{ asg with desired_capacity := (requested : Int) - 1 },
                some (entry.startTime + AutoScalingTimeouts.TIMEOUT),
                [.setDesiredCapacity ((requested : Int) - 1)]⟩)
    ∧ (¬ asg.desired_capacity > (requested : Int) - 1 →
        AutoScalingTimeouts.reconcile_limits spot_requests asg (entry :: rest) dry_run now timeout0
          = ⟨asg, timeout0, []⟩) := by
  have hb : (entry.statusCode == "Failed" || entry.statusCode == "Cancelled") = true := by
    rcases hstatus with h | h <;> simp [h]
  refine ⟨?_, ?_, ?_⟩
  · simp only [AutoScalingTimeouts.reconcile_limits, AutoScalingTimeouts.reconcile_limits_go,
      hb, hmatch, if_true]
  · intro hgt
    simp only [AutoScalingTimeouts.reconcile_limits, AutoScalingTimeouts.reconcile_limits_go,
      hb, hmatch, if_true, AutoScalingTimeouts.set_desired_capacity]
    rw [if_pos hgt]
    cases dry_run <;> simp
  · intro hle
    simp only [AutoScalingTimeouts.reconcile_limits, AutoScalingTimeouts.reconcile_limits_go,
      hb, hmatch, if_true]
    rw [if_neg hle]

/-- Witness for C3 at a concrete input: desired capacity 5, a Failed
instance-limit activity with requested 3 started at time 7; the non-dry-run
pass returns cap 2, expiry 3607, one capacity call. -/
theorem reconcile_instance_limit_first_activity_witness :
    AutoScalingTimeouts.reconcile_limits (fun _ => none) { desired_capacity := 5 }
      [{ statusCode := "Failed", startTime := 7,
         statusMessage := { instance_limit := some 3 } }] false 0 none
      = ⟨{ desired_capacity := 2 }, some (7 + AutoScalingTimeouts.TIMEOUT),
          [.setDesiredCapacity 2]⟩ := by
  have h := (reconcile_instance_limit_first_activity (fun _ => none) { desired_capacity := 5 }
      { statusCode := "Failed", startTime := 7, statusMessage := { instance_limit := some 3 } }
      [] false 0 none 3 (Or.inl rfl) rfl).2.1 (by norm_num)
  simpa using h

/-- C7: `scale(target)` never decreases desired capacity; the only capacity
mutation it may issue is `set_desired_capacity(min(max_size, target))`, and
only when that value strictly exceeds the current desired capacity; its
result is true iff capacity was increased; when the target is at or below
the current desired capacity, or desired capacity is already at max size,
nothing changes and the result is false. -/
theorem scale_only_grows (g : AutoScalingGroup) (target : Int) :
    ((g.scale target).result = true ↔ g.desired_capacity < min g.max_size target)
    ∧ (g.scale target).asg.desired_capacity
        = max g.desired_capacity (min g.max_size target)
    ∧ (g.scale target).calls
        = (if g.desired_capacity < min g.max_size target
           then [ProviderCall.setDesiredCapacity (min g.max_size target)] else [])
    ∧ g.desired_capacity ≤ (g.scale target).asg.desired_capacity
    ∧ ((target ≤ g.desired_capacity ∨ g.desired_capacity = g.max_size) →
        (g.scale target).result = false ∧ (g.scale target).asg = g) := by
  have hmin : min g.max_size target ≤ g.max_size := min_le_left _ _
  have hmin2 : min g.max_size target ≤ target := min_le_right _ _
  unfold AutoScalingGroup.scale
  by_cases h1 : g.desired_capacity = min g.max_size target
  · simp only [h1, bne_self_eq_false, Bool.false_eq_true, if_false]
    refine ⟨by simp, by simp, by simp, le_refl _, fun _ => by simp⟩
  · have hb : (g.desired_capacity != min g.max_size target) = true := by
      simp [bne_iff_ne, h1]
    simp only [hb, if_true]
    by_cases h2 : g.desired_capacity = g.max_size
    · have hlt : ¬ g.desired_capacity < min g.max_size target := by
        intro h
        exact absurd (h2 ▸ hmin) (not_le.mpr h)
      have hb2 : (g.desired_capacity == g.max_size) = true := by simp [h2]
      simp only [hb2, if_true]
      refine ⟨by simp [hlt], ?_, by simp [hlt], le_refl _, fun _ => by simp⟩
      simp [max_eq_left (le_of_not_lt hlt)]
    · have hb2 : (g.desired_capacity == g.max_size) = false := by
        simp [h2]
      simp only [hb2, Bool.false_eq_true, if_false]
      by_cases h3 : g.desired_capacity < min g.max_size target
      · simp only [h3, if_true]
        refine ⟨by simp [h3], ?_, by simp [h3], le_of_lt h3, ?_⟩
        · simp [max_eq_right (le_of_lt h3)]
        · intro hcase
          rcases hcase with hcase | hcase
          · exact absurd (lt_of_lt_of_le h3 hmin2) (not_lt.mpr hcase)
          · exact absurd hcase h2
      · simp only [h3, if_false]
        refine ⟨by simp [h3], ?_, by simp [h3], le_refl _, fun _ => by simp⟩
        simp [max_eq_left (le_of_not_lt h3)]

/-- Witness for C7 at a concrete input: the spec's scenario
`desired_capacity = 5, max_size = 5`, target 5 — no mutation, result false —
plus a growing case, target 7 with `max_size = 9`. -/
theorem scale_only_grows_witness :
    (({ desired_capacity := 5, max_size := 5 } : AutoScalingGroup).scale 5).result = false
    ∧ (({ desired_capacity := 5, max_size := 5 } : AutoScalingGroup).scale 5).asg
        = { desired_capacity := 5, max_size := 5 }
    ∧ (({ desired_capacity := 5, max_size := 9 } : AutoScalingGroup).scale 7).calls
        = [ProviderCall.setDesiredCapacity 7] := by
  refine ⟨?_, ?_, ?_⟩
  · exact ((scale_only_grows { desired_capacity := 5, max_size := 5 } 5).2.2.2.2
      (Or.inl (by norm_num))).1
  · exact ((scale_only_grows { desired_capacity := 5, max_size := 5 } 5).2.2.2.2
      (Or.inl (by norm_num))).2
  · have h := (scale_only_grows { desired_capacity := 5, max_size := 9 } 7).2.2.1
    norm_num at h
    exact h

/-- The dry-run pass issues no call and leaves the group untouched, and its
timeout outcome equals that of a non-dry-run pass in which no spot request
is cancellable (every mutation is gated on `dry_run`, and the only mutation
consulted by a later iteration is the post-cancellation capacity decrement). -/
theorem reconcile_go_dry_run_eq (spot_requests : String → Option String) (now : Int) :
    ∀ (activities : List Activity) (asg : AutoScalingGroup) (timeout : Option Int)
      (calls calls2 : List ProviderCall),
      AutoScalingTimeouts.reconcile_limits_go spot_requests true now asg timeout calls activities
        = ⟨asg,
           (AutoScalingTimeouts.reconcile_limits_go (fun _ => none) false now asg
              timeout calls2 activities).timeout,
           calls⟩ := by
  intro activities
  induction activities with
  | nil =>
    intro asg timeout calls calls2
    rfl
  | cons entry rest ih =>
    intro asg timeout calls calls2
    simp only [AutoScalingTimeouts.reconcile_limits_go, AutoScalingTimeouts.set_desired_capacity,
      AutoScalingTimeouts.revert_capacity, AutoScalingTimeouts.cancel_spot_request,
      Bool.not_true, Bool.not_false, Bool.false_eq_true, if_false]
    by_cases h1 : (entry.statusCode == "Failed" || entry.statusCode == "Cancelled") = true
    · simp only [h1, if_true]
      cases hil : entry.statusMessage.instance_limit with
      | some requested =>
        by_cases hgt : asg.desired_capacity > (requested : Int) - 1
        · simp [hgt]
        · simp [hgt]
      | none =>
        by_cases hvol : entry.statusMessage.volume_limit = true
        · simp [hvol]
        · by_cases hcap : entry.statusMessage.capacity_limit = true
          · simp only [hvol, hcap, if_true, Bool.false_eq_true, if_false]
            cases hcause : entry.cause.launch_instance with
            | some original =>
              by_cases hrev : asg.desired_capacity > (original : Int)
              · simp [hrev]
              · simp [hrev]
            | none => simp
          · by_cases haz :
                (entry.statusMessage.az_limit && AutoScalingTimeouts.str_contains asg.name "only-az") = true
            · simp only [hvol, hcap, haz, if_true, Bool.false_eq_true, if_false]
              cases hcause : entry.cause.launch_instance with
              | some original =>
                by_cases hrev : asg.desired_capacity > (original : Int)
                · simp [hrev]
                · simp [hrev]
              | none => simp
            · by_cases hsrc : entry.statusMessage.spot_request_cancelled = true
              · simp only [hvol, hcap, haz, hsrc, if_true, Bool.false_eq_true, if_false]
                exact ih asg timeout calls calls2
              · by_cases hsl : entry.statusMessage.spot_limit = true
                · simp [hvol, hcap, haz, hsrc, hsl]
                · simp only [hvol, hcap, haz, hsrc, hsl, Bool.false_eq_true, if_false]
                  exact ih asg timeout calls calls2
    · simp only [h1, Bool.false_eq_true, if_false]
      by_cases h2 : (entry.statusCode == "WaitingForSpotInstanceId") = true
      · simp only [h2, if_true]
        by_cases hbal : entry.cause.az_balance = true
        · simp only [hbal, if_true]
          exact ih asg timeout calls calls2
        · by_cases hwait : now - entry.startTime > AutoScalingTimeouts.SPOT_REQUEST_TIMEOUT
          · simp only [hbal, hwait, if_true, Bool.false_eq_true, if_false]
            cases hreq : entry.statusMessage.spot_request_waiting with
            | some request_id =>
              simp only [Bool.not_true, Bool.not_false, Bool.false_eq_true, if_false]
              exact ih asg (some (entry.startTime + AutoScalingTimeouts.TIMEOUT)) calls calls2
            | none =>
              exact ih asg (some (entry.startTime + AutoScalingTimeouts.TIMEOUT)) calls calls2
          · simp only [hbal, hwait, Bool.false_eq_true, if_false]
            exact ih asg timeout calls calls2
      · simp only [h2, Bool.false_eq_true, if_false]
        exact ih asg timeout calls calls2

/-- C8 (amended): with `dry_run=true`, `reconcile_limits` issues no provider
mutation and leaves the group's local desired capacity unchanged, and its
ordinary-timeout outcome equals that of a `dry_run=false` pass against a
provider on which no spot request is cancellable.  (It can differ from a
`dry_run=false` pass whose spot cancellation succeeds, because the
cancellation decrements the desired capacity consulted by later
activities.) -/
theorem reconcile_dry_run_frame (spot_requests : String → Option String)
    (asg : AutoScalingGroup) (activities : List Activity) (now : Int)
    (timeout0 : Option Int) :
    (AutoScalingTimeouts.reconcile_limits spot_requests asg activities true now timeout0).calls
        = []
    ∧ (AutoScalingTimeouts.reconcile_limits spot_requests asg activities true now timeout0).asg
        = asg
    ∧ (AutoScalingTimeouts.reconcile_limits spot_requests asg activities true now timeout0).timeout
        = (AutoScalingTimeouts.reconcile_limits (fun _ => none) asg activities false now
            timeout0).timeout := by
  unfold AutoScalingTimeouts.reconcile_limits
  rw [reconcile_go_dry_run_eq spot_requests now activities asg timeout0 [] []]
  exact ⟨rfl, rfl, rfl⟩

/-- Every termination call the node loop issues carries the decrement flag
`desired_capacity > min_size`. -/
theorem scale_nodes_in_go_flags (d m : Int) :
    ∀ (batch members : List KubeNode) (calls : List ProviderCall),
      (∀ id dd, ProviderCall.terminateInstance id dd ∈ calls → dd = decide (d > m)) →
      ∀ id dd,
        ProviderCall.terminateInstance id dd ∈ (scale_nodes_in_go d m members calls batch).calls →
        dd = decide (d > m) := by
  intro batch
  induction batch with
  | nil => intro members calls h id dd hm; exact h id dd hm
  | cons node rest ih =>
    intro members calls h id dd hm
    have h2 : ∀ id2 dd2,
        ProviderCall.terminateInstance id2 dd2 ∈
          calls ++ [ProviderCall.terminateInstance node.instance_id (decide (d > m))] →
        dd2 = decide (d > m) := by
      intro id2 dd2 hmem
      rcases List.mem_append.mp hmem with hc | hs
      · exact h id2 dd2 hc
      · rcases List.mem_singleton.mp hs with h3
        cases h3
        rfl
    cases htr : node.terminate_result with
    | ok =>
      simp only [scale_nodes_in_go, htr] at hm
      exact ih (members.erase node) _ h2 id dd hm
    | minSizeViolation =>
      simp only [scale_nodes_in_go, htr] at hm
      exact ih members _ h2 id dd hm
    | otherError =>
      simp only [scale_nodes_in_go, htr] at hm
      exact h2 id dd hm

/-- When no node in the batch triggers a fatal provider error, the node loop
attempts every node, in order, and reports no error. -/
theorem scale_nodes_in_go_no_fatal (d m : Int) :
    ∀ (batch members : List KubeNode) (calls : List ProviderCall),
      (∀ n ∈ batch, n.terminate_result ≠ TerminateResult.otherError) →
      (scale_nodes_in_go d m members calls batch).error = none
      ∧ (scale_nodes_in_go d m members calls batch).calls
          = calls ++ batch.map (fun n =>
              ProviderCall.terminateInstance n.instance_id (decide (d > m))) := by
  intro batch
  induction batch with
  | nil => intro members calls _; exact ⟨rfl, by simp [scale_nodes_in_go]⟩
  | cons node rest ih =>
    intro members calls h
    have hrest : ∀ n ∈ rest, n.terminate_result ≠ TerminateResult.otherError :=
      fun n hn => h n (List.mem_cons_of_mem _ hn)
    cases htr : node.terminate_result with
    | ok =>
      simp only [scale_nodes_in_go, htr]
      have hr := ih (members.erase node)
        (calls ++ [ProviderCall.terminateInstance node.instance_id (decide (d > m))]) hrest
      exact ⟨hr.1, by rw [hr.2]; simp⟩
    | minSizeViolation =>
      simp only [scale_nodes_in_go, htr]
      have hr := ih members
        (calls ++ [ProviderCall.terminateInstance node.instance_id (decide (d > m))]) hrest
      exact ⟨hr.1, by rw [hr.2]; simp⟩
    | otherError => exact absurd htr (h node (List.mem_cons_self _ _))

/-- A fatal provider error on a node propagates: the nodes before it (and
it) are attempted, the nodes after it are not, and the error names the
offending instance. -/
theorem scale_nodes_in_go_fatal (d m : Int) :
    ∀ (pre : List KubeNode) (bad : KubeNode) (post members : List KubeNode)
      (calls : List ProviderCall),
      (∀ n ∈ pre, n.terminate_result ≠ TerminateResult.otherError) →
      bad.terminate_result = TerminateResult.otherError →
      (scale_nodes_in_go d m members calls (pre ++ bad :: post)).error
          = some bad.instance_id
      ∧ (scale_nodes_in_go d m members calls (pre ++ bad :: post)).calls
          = calls ++ (pre ++ [bad]).map (fun n =>
              ProviderCall.terminateInstance n.instance_id (decide (d > m))) := by
  intro pre
  induction pre with
  | nil =>
    intro bad post members calls _ hbad
    simp only [List.nil_append, scale_nodes_in_go, hbad]
    exact ⟨by simp, by simp⟩
  | cons node rest ih =>
    intro bad post members calls h hbad
    have hrest : ∀ n ∈ rest, n.terminate_result ≠ TerminateResult.otherError :=
      fun n hn => h n (List.mem_cons_of_mem _ hn)
    cases htr : node.terminate_result with
    | ok =>
      simp only [List.cons_append, scale_nodes_in_go, htr, List.append_eq]
      have hr := ih bad post (members.erase node)
        (calls ++ [ProviderCall.terminateInstance node.instance_id (decide (d > m))]) hrest hbad
      exact ⟨hr.1, by rw [hr.2]; simp⟩
    | minSizeViolation =>
      simp only [List.cons_append, scale_nodes_in_go, htr, List.append_eq]
      have hr := ih bad post members
        (calls ++ [ProviderCall.terminateInstance node.instance_id (decide (d > m))]) hrest hbad
      exact ⟨hr.1, by rw [hr.2]; simp⟩
    | otherError => exact absurd htr (h node (List.mem_cons_self _ _))

/-- After a batch with no fatal error, the local membership has lost exactly
the batch nodes whose termination succeeded. -/
theorem scale_nodes_in_go_membership (d m : Int) :
    ∀ (batch members : List KubeNode) (calls : List ProviderCall),
      members.Nodup →
      (∀ n ∈ batch, n.terminate_result ≠ TerminateResult.otherError) →
      (scale_nodes_in_go d m members calls batch).nodes
        = members.filter (fun x =>
            !(batch.contains x && x.terminate_result == TerminateResult.ok)) := by
  intro batch
  induction batch with
  | nil =>
    intro members calls _ _
    simp [scale_nodes_in_go]
  | cons node rest ih =>
    intro members calls hnd h
    have hrest : ∀ n ∈ rest, n.terminate_result ≠ TerminateResult.otherError :=
      fun n hn => h n (List.mem_cons_of_mem _ hn)
    cases htr : node.terminate_result with
    | ok =>
      simp only [scale_nodes_in_go, htr]
      rw [ih (members.erase node)
          (calls ++ [ProviderCall.terminateInstance node.instance_id (decide (d > m))])
          (hnd.erase _) hrest,
        hnd.erase_eq_filter node, List.filter_filter]
      apply List.filter_congr
      intro x _
      by_cases hxn : x = node
      · subst hxn
        simp [htr, List.contains_cons]
      · simp [List.contains_cons, bne_iff_ne, hxn]
    | minSizeViolation =>
      simp only [scale_nodes_in_go, htr]
      rw [ih members
          (calls ++ [ProviderCall.terminateInstance node.instance_id (decide (d > m))])
          hnd hrest]
      apply List.filter_congr
      intro x _
      by_cases hxn : x = node
      · subst hxn
        simp [htr, List.contains_cons]
      · simp [List.contains_cons, hxn]
    | otherError => exact absurd htr (h node (List.mem_cons_self _ _))

/-- C9: on `scale_nodes_in(batch)` every termination call carries the
decrement flag iff `desired_capacity > min_size`; a min-size-violation
rejection is non-fatal (every node of a batch with no other provider error
is attempted, in order, and no error is reported); any other provider error
propagates, aborting the nodes after it; and each successfully terminated
node is removed from the group's local membership. -/
theorem scale_nodes_in_spec (g : AutoScalingGroup) (batch : List KubeNode) :
    (∀ id dd, ProviderCall.terminateInstance id dd ∈ (g.scale_nodes_in batch).calls →
        dd = decide (g.desired_capacity > g.min_size))
    ∧ ((∀ n ∈ batch, n.terminate_result ≠ TerminateResult.otherError) →
        (g.scale_nodes_in batch).error = none
        ∧ (g.scale_nodes_in batch).calls
            = batch.map (fun n => ProviderCall.terminateInstance n.instance_id
                (decide (g.desired_capacity > g.min_size))))
    ∧ (∀ (pre : List KubeNode) (bad : KubeNode) (post : List KubeNode),
        batch = pre ++ bad :: post →
        (∀ n ∈ pre, n.terminate_result ≠ TerminateResult.otherError) →
        bad.terminate_result = TerminateResult.otherError →
        (g.scale_nodes_in batch).error = some bad.instance_id
        ∧ (g.scale_nodes_in batch).calls
            = (pre ++ [bad]).map (fun n => ProviderCall.terminateInstance n.instance_id
                (decide (g.desired_capacity > g.min_size))))
    ∧ (g.nodes.Nodup →
        (∀ n ∈ batch, n.terminate_result ≠ TerminateResult.otherError) →
        (g.scale_nodes_in batch).nodes
          = g.nodes.filter (fun x =>
              !(batch.contains x && x.terminate_result == TerminateResult.ok))) := by
  refine ⟨?_, ?_, ?_, ?_⟩
  · exact fun id dd hm =>
      scale_nodes_in_go_flags g.desired_capacity g.min_size batch g.nodes []
        (by simp) id dd hm
  · intro h
    have hr := scale_nodes_in_go_no_fatal g.desired_capacity g.min_size batch g.nodes [] h
    exact ⟨hr.1, by simpa using hr.2⟩
  · intro pre bad post hb hpre hbad
    subst hb
    have hr := scale_nodes_in_go_fatal g.desired_capacity g.min_size pre bad post g.nodes []
      hpre hbad
    exact ⟨hr.1, by simpa using hr.2⟩
  · intro hnd h
    exact scale_nodes_in_go_membership g.desired_capacity g.min_size batch g.nodes [] hnd h

/-- Witness for C9 at a concrete input: a two-node group at min size
(`desired_capacity = 1 = min_size`), a batch in which the first node's
termination is rejected for violating min size and the second succeeds:
no fatal error, both calls issued without the decrement flag, and only the
successfully terminated node leaves the membership. -/
theorem scale_nodes_in_spec_witness :
    (witness_group.scale_nodes_in [witness_node_minsize, witness_node_ok]).error = none
    ∧ (witness_group.scale_nodes_in [witness_node_minsize, witness_node_ok]).calls
        = [.terminateInstance "i-1" false, .terminateInstance "i-2" false]
    ∧ (witness_group.scale_nodes_in [witness_node_minsize, witness_node_ok]).nodes
        = [witness_node_minsize] := by
  have hr := scale_nodes_in_spec witness_group [witness_node_minsize, witness_node_ok]
  have h1 := hr.2.1 (by decide)
  have h4 := hr.2.2.2 (by decide) (by decide)
  refine ⟨h1.1, ?_, ?_⟩
  · rw [h1.2]
    decide
  · rw [h4]
    decide

/-- `alist_set` changes the key set only by adding `k`. -/
theorem alist_set_mem_keys (l : List (String × α)) (k k2 : String) (v : α) :
    k2 ∈ (alist_set l k v).map Prod.fst ↔ k2 ∈ l.map Prod.fst ∨ k2 = k := by
  unfold alist_set
  split
  · next hfind =>
    have hk : k ∈ l.map Prod.fst := by
      rcases List.find?_isSome.mp hfind with ⟨p, hp, hpk⟩
      have hp1 : p.1 = k := by simpa using hpk
      exact hp1 ▸ List.mem_map_of_mem Prod.fst hp
    have hmap : (l.map (fun p => if p.1 == k then (k, v) else p)).map Prod.fst
        = l.map Prod.fst := by
      rw [List.map_map]
      apply List.map_congr_left
      intro p _
      by_cases hpk : p.1 = k
      · simp [hpk]
      · simp [hpk]
    rw [hmap]
    constructor
    · exact Or.inl
    · rintro (h | rfl)
      · exact h
      · exact hk
  · simp

/-- The zones accumulated by `outbid_scan` are exactly the zones with at
least one matching outbid observation (beyond whatever the accumulator
already held): a zone's first outbid observation enters the map (with zero
accumulated duration), so it is counted even if it never accumulates. -/
theorem outbid_scan_mem_keys (instance_type : String) (bid_price : ℚ) :
    ∀ (history : List SpotPriceItem) (last_az_bid outbid_time : List (String × Int))
      (k : String),
      k ∈ (outbid_scan instance_type bid_price history last_az_bid outbid_time).map Prod.fst
        ↔ (k ∈ outbid_time.map Prod.fst ∨
            ∃ item ∈ history, item.InstanceType = instance_type
              ∧ item.SpotPrice > bid_price ∧ item.AvailabilityZone = k) := by
  intro history
  induction history with
  | nil =>
    intro last_az_bid outbid_time k
    simp [outbid_scan]
  | cons item rest ih =>
    intro last_az_bid outbid_time k
    by_cases hty : item.InstanceType = instance_type
    · have hne : (item.InstanceType != instance_type) = false := by simp [hty]
      by_cases hpr : item.SpotPrice > bid_price
      · simp only [outbid_scan, hne, Bool.false_eq_true, if_false, hpr, if_true]
        rw [ih, alist_set_mem_keys]
        constructor
        · rintro ((h | rfl) | ⟨it, hit, h1, h2, h3⟩)
          · exact Or.inl h
          · exact Or.inr ⟨item, List.mem_cons_self _ _, hty, hpr, rfl⟩
          · exact Or.inr ⟨it, List.mem_cons_of_mem _ hit, h1, h2, h3⟩
        · rintro (h | ⟨it, hit, h1, h2, h3⟩)
          · exact Or.inl (Or.inl h)
          · rcases List.mem_cons.mp hit with rfl | hit2
            · exact Or.inl (Or.inr h3.symm)
            · exact Or.inr ⟨it, hit2, h1, h2, h3⟩
      · simp only [outbid_scan, hne, Bool.false_eq_true, if_false, hpr]
        rw [ih]
        constructor
        · rintro (h | ⟨it, hit, h1, h2, h3⟩)
          · exact Or.inl h
          · exact Or.inr ⟨it, List.mem_cons_of_mem _ hit, h1, h2, h3⟩
        · rintro (h | ⟨it, hit, h1, h2, h3⟩)
          · exact Or.inl h
          · rcases List.mem_cons.mp hit with rfl | hit2
            · exact absurd h2 hpr
            · exact Or.inr ⟨it, hit2, h1, h2, h3⟩
    · have hne : (item.InstanceType != instance_type) = true := by simp [hty]
      simp only [outbid_scan, hne, if_true]
      rw [ih]
      constructor
      · rintro (h | ⟨it, hit, h1, h2, h3⟩)
        · exact Or.inl h
        · exact Or.inr ⟨it, List.mem_cons_of_mem _ hit, h1, h2, h3⟩
      · rintro (h | ⟨it, hit, h1, h2, h3⟩)
        · exact Or.inl h
        · rcases List.mem_cons.mp hit with rfl | hit2
          · exact absurd h1 hty
          · exact Or.inr ⟨it, hit2, h1, h2, h3⟩

/-- C6 (amended): the spot-outbid average divides the accumulated outbid
durations by the count of zones with AT LEAST ONE outbid observation — a
zone's first outbid observation contributes zero duration yet counts in the
denominator (so zero-duration zones are not excluded; see the
counterexample).  A group with no outbid observation at all is never
spot-timed-out, and the channel is set to `now + 1 hour` exactly when the
code's average strictly exceeds 20 minutes, else cleared. -/
theorem spot_timeout_amended (instance_type : String) (bid_price : ℚ)
    (history : List SpotPriceItem) (now : Int) :
    (∀ k, k ∈ (outbid_scan instance_type bid_price history [] []).map Prod.fst ↔
        ∃ item ∈ history, item.InstanceType = instance_type
          ∧ item.SpotPrice > bid_price ∧ item.AvailabilityZone = k)
    ∧ ((∀ item ∈ history, ¬(item.InstanceType = instance_type ∧ item.SpotPrice > bid_price)) →
        AutoScalingTimeouts.spot_timeout_of_asg instance_type bid_price history now = none)
    ∧ (avg_outbid_time (outbid_scan instance_type bid_price history [] [])
          > (AutoScalingTimeouts.MAX_OUTBIDS_IN_INTERVAL : ℚ) →
        AutoScalingTimeouts.spot_timeout_of_asg instance_type bid_price history now
          = some (now + AutoScalingTimeouts.TIMEOUT))
    ∧ (¬ avg_outbid_time (outbid_scan instance_type bid_price history [] [])
          > (AutoScalingTimeouts.MAX_OUTBIDS_IN_INTERVAL : ℚ) →
        AutoScalingTimeouts.spot_timeout_of_asg instance_type bid_price history now
          = none) := by
  have hkeys : ∀ k,
      k ∈ (outbid_scan instance_type bid_price history [] []).map Prod.fst ↔
        ∃ item ∈ history, item.InstanceType = instance_type
          ∧ item.SpotPrice > bid_price ∧ item.AvailabilityZone = k := by
    intro k
    have h := outbid_scan_mem_keys instance_type bid_price history [] [] k
    simpa using h
  refine ⟨hkeys, ?_, ?_, ?_⟩
  · intro hno
    have hempty : outbid_scan instance_type bid_price history [] [] = [] := by
      cases hl : outbid_scan instance_type bid_price history [] [] with
      | nil => rfl
      | cons p t =>
        exfalso
        have hmem : p.1 ∈ (outbid_scan instance_type bid_price history [] []).map Prod.fst := by
          rw [hl]
          simp
        rcases (hkeys p.1).mp hmem with ⟨it, hit, h1, h2, _⟩
        exact hno it hit ⟨h1, h2⟩
    simp only [AutoScalingTimeouts.spot_timeout_of_asg, hempty]
    norm_num [avg_outbid_time, AutoScalingTimeouts.MAX_OUTBIDS_IN_INTERVAL]
  · intro hgt
    simp only [AutoScalingTimeouts.spot_timeout_of_asg]
    rw [if_pos hgt]
  · intro hle
    simp only [AutoScalingTimeouts.spot_timeout_of_asg]
    rw [if_neg hle]

/-- Witness for C6's amended theorem at a concrete input: an empty history
has no outbid observation, so the spot channel is cleared. -/
theorem spot_timeout_amended_witness :
    AutoScalingTimeouts.spot_timeout_of_asg "m4" 1 [] 0 = none :=
  (spot_timeout_amended "m4" 1 [] 0).2.1 (by simp)
